import Mathlib

/-!
Verification of the `Threshold` pipeline filter
(`enthought/mayavi/filters/threshold.py`).

The filter is a reactive pipeline node: it keeps threshold bounds, cached
data-range state, two owned VTK algorithm instances (cell thresholding and
point thresholding), and reacts to upstream pipeline/data events.

Modelling conventions:
* Scalar values are rationals (`ℚ`); the Python floats `-1.0e20`/`1.0e20`
  become the exact rationals `-(10^20)`/`10^20`.
* Trait assignment semantics (from the Enthought Traits library, an external
  collaborator): a static `_<name>_changed` handler fires only when the
  assigned value differs from the current one; `trait_change_notify=False`
  sets the value silently.  The dynamic `Range` bounds are informative and
  not enforced at assignment, following the specification of the setters.
* The VTK algorithm instances (`tvtk.Threshold`, `tvtk.ThresholdPoints`) are
  modelled symbolically: executing an instance produces a `Dataset` term
  recording the mode, the applied bounds and the input, so "the result of
  running algorithm `m` with bounds `(lo, hi)` on input `d`" is decidable.
* VTK output objects are aliased, not copied: `self.outputs` stores the
  active instance's output *object*.  We model this with ports: an entry of
  `outputs` names which instance's output it refers to, and the observable
  datasets are read through the current instance states.
* Python `IndexError`/`ValueError` on list indexing/unpacking are modelled
  with `Except`.
* Every operation returns, besides the new state, the ordered trace of
  observable events: algorithm executions, output (re)assignments, and
  `data_changed` notifications.  A `data_changed` event records the
  observable outputs at the instant it is emitted.
-/

namespace MayaviThreshold

/-- The `filter_type` enum: thresholding on cells or on points. -/
inductive FilterType where
  | cells
  | points
deriving DecidableEq, Repr

/-- A scalar array attached to a dataset; the code only reads its `range`
(minimum, maximum). -/
structure ScalarArray where
  range : ℚ × ℚ
deriving DecidableEq, Repr

/-- A dataset flowing through the pipeline.  `unbound` stands for the
content of an algorithm input port that has never been connected.  `raw`
is an upstream dataset with optional point-attached and cell-attached
scalar arrays.  `thresholded` is the symbolic result of the external
geometry engine: running the algorithm of the given mode with the given
bounds on the given input (modelled from the spec: the External Geometry
Engine, an external collaborator, produces a filtered dataset from a
dataset, a bound pair and a mode). -/
inductive Dataset where
  | unbound
  | raw (point_scalars cell_scalars : Option ScalarArray)
  | thresholded (mode : FilterType) (lo hi : ℚ) (input : Dataset)
deriving DecidableEq, Repr

/-- `input.point_data.scalars`: the point-attached scalar array.  The
engine's output attributes are not modelled (no claim reads scalars from a
thresholded dataset). -/
def Dataset.point_scalars : Dataset → Option ScalarArray
  | .raw ps _ => ps
  | _ => none

/-- `input.cell_data.scalars`: the cell-attached scalar array. -/
def Dataset.cell_scalars : Dataset → Option ScalarArray
  | .raw _ cs => cs
  | _ => none

/-- Python exceptions raised by the code paths we model. -/
inductive Err where
  | indexError
  | valueError
deriving DecidableEq, Repr

deriving instance DecidableEq for Except

/-- A VTK threshold-algorithm instance (`tvtk.Threshold` for cell mode,
`tvtk.ThresholdPoints` for point mode): its bound input, the bound pair set
by `threshold_between`, its output object, and how many times it has been
executed (`update`). -/
structure TVTK where
  mode : FilterType
  input : Dataset
  t_lo : ℚ
  t_hi : ℚ
  output : Dataset
  exec_count : ℕ
deriving DecidableEq, Repr

/-- `fil.threshold_between(lo, hi)`. -/
def TVTK.threshold_between (f : TVTK) (lo hi : ℚ) : TVTK :=
  { f with t_lo := lo, t_hi := hi }

/-- `fil.update()`: execute the algorithm; the output object becomes the
engine's result for the current mode, bounds and input. -/
def TVTK.update (f : TVTK) : TVTK :=
  { f with output := Dataset.thresholded f.mode f.t_lo f.t_hi f.input,
           exec_count := f.exec_count + 1 }

/-- An upstream pipeline node, as seen from this filter: its `outputs`. -/
structure Upstream where
  outputs : List Dataset
deriving DecidableEq, Repr

/-- The state of a `Threshold` filter instance.  `outputs` stores port
references: `FilterType.cells` refers to the output object of the cell
instance `_threshold`, `FilterType.points` to that of `_threshold_points`
(VTK output objects are aliased by `_set_outputs`, not copied). -/
structure ThState where
  filter_type : FilterType
  lower_threshold : ℚ
  upper_threshold : ℚ
  auto_reset_lower : Bool
  auto_reset_upper : Bool
  _data_min : ℚ
  _data_max : ℚ
  _threshold : TVTK
  _threshold_points : TVTK
  _first : Bool
  inputs : List Upstream
  outputs : List FilterType
deriving DecidableEq, Repr

/-- The instance owned by the filter for the given mode. -/
def ThState.instAt (s : ThState) (m : FilterType) : TVTK :=
  if m = FilterType.cells then s._threshold else s._threshold_points

/-- The `threshold_filter` property getter (`_get_threshold_filter`):
the active instance, selected by `filter_type`. -/
def ThState.threshold_filter (s : ThState) : TVTK :=
  if s.filter_type = FilterType.cells then s._threshold else s._threshold_points

/-- Write back a mutation of the active instance. -/
def ThState.setActive (s : ThState) (f : TVTK) : ThState :=
  if s.filter_type = FilterType.cells then { s with _threshold := f }
  else { s with _threshold_points := f }

/-- The datasets a downstream observer sees when re-pulling `outputs`:
the current output objects of the referenced instances. -/
def ThState.observableOutputs (s : ThState) : List Dataset :=
  s.outputs.map fun m => (s.instAt m).output

/-- Observable events, in emission order.  `data_changed` records the
observable outputs at the instant the notification is emitted. -/
inductive Event where
  | exec (mode : FilterType)
  | set_outputs (ports : List FilterType)
  | data_changed (obs : List Dataset)
deriving DecidableEq, Repr

/-- Number of algorithm executions in a trace. -/
def countExec (tr : List Event) : ℕ :=
  tr.countP fun e => match e with | .exec _ => true | _ => false

/-- Number of `data_changed` notifications in a trace. -/
def countDC (tr : List Event) : ℕ :=
  tr.countP fun e => match e with | .data_changed _ => true | _ => false

/-- `_get_data_range` body applied to a dataset: point data takes priority,
then cell data, else the empty range. -/
def dataRange (d : Dataset) : List ℚ :=
  match d.point_scalars with
  | some ps => [ps.range.1, ps.range.2]
  | none =>
    match d.cell_scalars with
    | some cs => [cs.range.1, cs.range.2]
    | none => []

/-- `_get_data_range`: reads `self.inputs[0].outputs[0]` (IndexError when
either sequence is empty) and selects the scalar range. -/
def getDataRange (s : ThState) : Except Err (List ℚ) :=
  match s.inputs with
  | [] => .error .indexError
  | u :: _ =>
    match u.outputs with
    | [] => .error .indexError
    | d :: _ => .ok (dataRange d)

/-- Modelled from the spec: `Filter._set_outputs` of the core base class
(`enthought/mayavi/core/filter.py`, not under `src/`) assigns the node's
`outputs` to the given sequence; output objects are stored by reference. -/
def setOutputsFn (s : ThState) (ports : List FilterType) :
    ThState × List Event :=
  ({ s with outputs := ports }, [Event.set_outputs ports])

/-- `_lower_threshold_changed(new_value)`: apply the new bound pair to the
active instance, execute it, and notify `data_changed`.  (The notification
is emitted after the execution, so it records the post-execution
observable outputs.) -/
def lowerThresholdChanged (s : ThState) (new_value : ℚ) :
    ThState × List Event :=
  let fil := s.threshold_filter
  let fil := fil.threshold_between new_value s.upper_threshold
  let fil := fil.update
  let s1 := s.setActive fil
  (s1, [Event.exec s.filter_type, Event.data_changed s1.observableOutputs])

/-- `_upper_threshold_changed(new_value)`. -/
def upperThresholdChanged (s : ThState) (new_value : ℚ) :
    ThState × List Event :=
  let fil := s.threshold_filter
  let fil := fil.threshold_between s.lower_threshold new_value
  let fil := fil.update
  let s1 := s.setActive fil
  (s1, [Event.exec s.filter_type, Event.data_changed s1.observableOutputs])

/-- Trait assignment `self.lower_threshold = v`: the static handler fires
only when the value actually changes (Traits semantics). -/
def set_lower_threshold (s : ThState) (v : ℚ) : ThState × List Event :=
  if s.lower_threshold = v then (s, [])
  else lowerThresholdChanged { s with lower_threshold := v } v

/-- Trait assignment `self.upper_threshold = v`. -/
def set_upper_threshold (s : ThState) (v : ℚ) : ThState × List Event :=
  if s.upper_threshold = v then (s, [])
  else upperThresholdChanged { s with upper_threshold := v } v

/-- The `if self.auto_reset_lower:` block of `_update_ranges`'s
subsequent-update branch: update `_data_min` and assign the lower bound,
silently when `auto_reset_upper` is also on
(`notify = not self.auto_reset_upper`). -/
def updateRangesLower (s : ThState) (lo : ℚ) : ThState × List Event :=
  if s.auto_reset_lower then
    if s.auto_reset_upper then
      ({ s with _data_min := lo, lower_threshold := lo }, [])
    else set_lower_threshold { s with _data_min := lo } lo
  else (s, [])

/-- The `if self.auto_reset_upper:` block of `_update_ranges`'s
subsequent-update branch: update `_data_max` and assign the upper bound
(ordinary notifying trait assignment). -/
def updateRangesUpper (s : ThState) (hi : ℚ) : ThState × List Event :=
  if s.auto_reset_upper then
    set_upper_threshold { s with _data_max := hi } hi
  else (s, [])

/-- `_update_ranges`: recompute the cached range and the bounds.
`self.set(lower_threshold=dr[0], trait_change_notify=False)` is a silent
field write.  `getDataRange` only ever returns a list of length 0 or 2; a
singleton would make the tuple unpacking
`self._data_min, self._data_max = dr` raise. -/
def updateRanges (s : ThState) : Except Err (ThState × List Event) :=
  match getDataRange s with
  | .error e => .error e
  | .ok data_range =>
    match data_range with
    | [] => .ok (s, [])
    | [_] => .error .valueError
    | lo :: hi :: _ =>
      if s._first then
        .ok ({ (set_upper_threshold
                  { s with _data_min := lo, _data_max := hi,
                           lower_threshold := lo } hi).1 with _first := false },
             (set_upper_threshold
                  { s with _data_min := lo, _data_max := hi,
                           lower_threshold := lo } hi).2)
      else
        .ok ((updateRangesUpper (updateRangesLower s lo).1 hi).1,
             (updateRangesLower s lo).2 ++
               (updateRangesUpper (updateRangesLower s lo).1 hi).2)

/-- `update_pipeline`: no-op when detached; otherwise bind the active
instance's input to `inputs[0].outputs[0]`, run `_update_ranges`, then
`_set_outputs([self.threshold_filter.output])`. -/
def update_pipeline (s : ThState) : Except Err (ThState × List Event) :=
  match s.inputs with
  | [] => .ok (s, [])
  | u :: _ =>
    match u.outputs with
    | [] => .error .indexError
    | d :: _ =>
      match updateRanges (s.setActive { s.threshold_filter with input := d }) with
      | .error e => .error e
      | .ok (s2, tr) =>
        .ok ((setOutputsFn s2 [s2.filter_type]).1,
             tr ++ (setOutputsFn s2 [s2.filter_type]).2)

/-- `update_data`: no-op when detached; otherwise run `_update_ranges` and
propagate the `data_changed` event. -/
def update_data (s : ThState) : Except Err (ThState × List Event) :=
  match s.inputs with
  | [] => .ok (s, [])
  | _ :: _ =>
    match updateRanges s with
    | .error e => .error e
    | .ok (s1, tr) =>
      .ok (s1, tr ++ [Event.data_changed s1.observableOutputs])

/-- `_auto_reset_lower_changed(value)`: no-op when detached; when enabled,
reads `dr[0]` of the current data range — an IndexError when the range is
empty — then updates `_data_min` and assigns `lower_threshold`. -/
def autoResetLowerChanged (s : ThState) (value : Bool) :
    Except Err (ThState × List Event) :=
  match s.inputs with
  | [] => .ok (s, [])
  | _ :: _ =>
    if value then
      match getDataRange s with
      | .error e => .error e
      | .ok dr =>
        match dr with
        | [] => .error .indexError
        | lo :: _ =>
          .ok (set_lower_threshold { s with _data_min := lo } lo)
    else .ok (s, [])

/-- `_auto_reset_upper_changed(value)`: reads `dr[1]`. -/
def autoResetUpperChanged (s : ThState) (value : Bool) :
    Except Err (ThState × List Event) :=
  match s.inputs with
  | [] => .ok (s, [])
  | _ :: _ =>
    if value then
      match getDataRange s with
      | .error e => .error e
      | .ok dr =>
        match dr with
        | _ :: hi :: _ =>
          .ok (set_upper_threshold { s with _data_max := hi } hi)
        | _ => .error .indexError
    else .ok (s, [])

/-- Trait assignment `self.auto_reset_lower = v` (handler on change only). -/
def set_auto_reset_lower (s : ThState) (v : Bool) :
    Except Err (ThState × List Event) :=
  if s.auto_reset_lower = v then .ok (s, [])
  else autoResetLowerChanged { s with auto_reset_lower := v } v

/-- Trait assignment `self.auto_reset_upper = v`. -/
def set_auto_reset_upper (s : ThState) (v : Bool) :
    Except Err (ThState × List Event) :=
  if s.auto_reset_upper = v then .ok (s, [])
  else autoResetUpperChanged { s with auto_reset_upper := v } v

/-- `_threshold_filter_changed(old, new)`: fired by
`trait_property_changed` after a `filter_type` switch, so the new instance
is the now-active one.  No-op when detached; otherwise rebind the new
instance's input, apply the current bound pair, execute, and
`_set_outputs([fil.output])`. -/
def thresholdFilterChanged (s : ThState) :
    Except Err (ThState × List Event) :=
  match s.inputs with
  | [] => .ok (s, [])
  | u :: _ =>
    match u.outputs with
    | [] => .error .indexError
    | d :: _ =>
      let fil := s.threshold_filter
      let fil := { fil with input := d }
      let fil := fil.threshold_between s.lower_threshold s.upper_threshold
      let fil := fil.update
      let s1 := s.setActive fil
      let p := setOutputsFn s1 [s1.filter_type]
      .ok (p.1, Event.exec s1.filter_type :: p.2)

/-- Trait assignment `self.filter_type = v`: on an actual change,
`_filter_type_changed` fires `trait_property_changed('threshold_filter',
old, new)`, which unconditionally runs `_threshold_filter_changed`. -/
def set_filter_type (s : ThState) (v : FilterType) :
    Except Err (ThState × List Event) :=
  if s.filter_type = v then .ok (s, [])
  else thresholdFilterChanged { s with filter_type := v }

/-- A persisted trait value. -/
inductive SVal where
  | q (x : ℚ)
  | b (x : Bool)
  | ft (x : FilterType)
deriving DecidableEq, Repr

/-- Modelled from the spec: the base `Filter.__get_pure_state__`
(`enthought/mayavi/core/`, not under `src/`) returns a dict of the node's
own persistable trait values — here the `Threshold` instance's traits. -/
def basePureState (s : ThState) : List (String × SVal) :=
  [("filter_type", SVal.ft s.filter_type),
   ("lower_threshold", SVal.q s.lower_threshold),
   ("upper_threshold", SVal.q s.upper_threshold),
   ("auto_reset_lower", SVal.b s.auto_reset_lower),
   ("auto_reset_upper", SVal.b s.auto_reset_upper),
   ("_first", SVal.b s._first),
   ("_data_min", SVal.q s._data_min),
   ("_data_max", SVal.q s._data_max)]

/-- `d.pop(name, None)` on a dict modelled as an association list. -/
def dictPop (d : List (String × SVal)) (k : String) : List (String × SVal) :=
  d.filter fun kv => kv.1 ≠ k

/-- `__get_pure_state__`: the base pure state with the dynamically created
traits `_first`, `_data_min`, `_data_max` popped. -/
def getPureState (s : ThState) : List (String × SVal) :=
  dictPop (dictPop (dictPop (basePureState s) "_first") "_data_min") "_data_max"

/-- A fresh algorithm instance of the given mode: no input bound yet, VTK
default bounds, the initial empty output object, never executed. -/
def initTVTK (m : FilterType) : TVTK :=
  { mode := m, input := Dataset.unbound, t_lo := -(10^20 : ℚ), t_hi := (10^20 : ℚ),
    output := Dataset.raw none none, exec_count := 0 }

/-- A freshly constructed, detached `Threshold` filter: the trait defaults
of the class. -/
def initial : ThState :=
  { filter_type := FilterType.cells,
    lower_threshold := -(10^20 : ℚ),
    upper_threshold := (10^20 : ℚ),
    auto_reset_lower := true,
    auto_reset_upper := true,
    _data_min := -(10^20 : ℚ),
    _data_max := (10^20 : ℚ),
    _threshold := initTVTK FilterType.cells,
    _threshold_points := initTVTK FilterType.points,
    _first := true,
    inputs := [],
    outputs := [] }

/-- A fresh filter attached to an upstream node producing one raw dataset
with the given scalar arrays. -/
def attachRaw (ps cs : Option ScalarArray) : ThState :=
  { initial with inputs := [⟨[Dataset.raw ps cs]⟩] }

/-- Every `data_changed` notification in the trace records observable
outputs equal to the operation's final observable outputs: a downstream
observer re-pulling `outputs` at the notification sees no stale data. -/
def notifiesCurrent (p : ThState × List Event) : Bool :=
  p.2.all fun e =>
    match e with
    | .data_changed obs => decide (obs = p.1.observableOutputs)
    | _ => true

/-- `notifiesCurrent` for fallible operations (an operation that raised
never notified at all). -/
def notifiesCurrentE (r : Except Err (ThState × List Event)) : Bool :=
  match r with
  | .error _ => true
  | .ok p => notifiesCurrent p

section Lemmas

lemma setActive_outputs (s : ThState) (f : TVTK) :
    (s.setActive f).outputs = s.outputs := by
  unfold ThState.setActive; split <;> rfl

lemma setActive_filter_type (s : ThState) (f : TVTK) :
    (s.setActive f).filter_type = s.filter_type := by
  unfold ThState.setActive; split <;> rfl

lemma setActive_lower (s : ThState) (f : TVTK) :
    (s.setActive f).lower_threshold = s.lower_threshold := by
  unfold ThState.setActive; split <;> rfl

lemma setActive_upper (s : ThState) (f : TVTK) :
    (s.setActive f).upper_threshold = s.upper_threshold := by
  unfold ThState.setActive; split <;> rfl

lemma setActive_auto_lower (s : ThState) (f : TVTK) :
    (s.setActive f).auto_reset_lower = s.auto_reset_lower := by
  unfold ThState.setActive; split <;> rfl

lemma setActive_auto_upper (s : ThState) (f : TVTK) :
    (s.setActive f).auto_reset_upper = s.auto_reset_upper := by
  unfold ThState.setActive; split <;> rfl

lemma setActive_first (s : ThState) (f : TVTK) :
    (s.setActive f)._first = s._first := by
  unfold ThState.setActive; split <;> rfl

lemma setActive_inputs (s : ThState) (f : TVTK) :
    (s.setActive f).inputs = s.inputs := by
  unfold ThState.setActive; split <;> rfl

lemma setActive_data_min (s : ThState) (f : TVTK) :
    (s.setActive f)._data_min = s._data_min := by
  unfold ThState.setActive; split <;> rfl

lemma setActive_data_max (s : ThState) (f : TVTK) :
    (s.setActive f)._data_max = s._data_max := by
  unfold ThState.setActive; split <;> rfl

lemma setActive_threshold_filter (s : ThState) (f : TVTK) :
    (s.setActive f).threshold_filter = f := by
  unfold ThState.setActive ThState.threshold_filter
  split <;> simp_all

lemma notifiesCurrent_nil (s : ThState) : notifiesCurrent (s, []) = true := rfl

/-- `_first` does not enter the observable outputs, so it does not affect
which notifications are fresh. -/
lemma notifiesCurrent_first (s : ThState) (tr : List Event) (b : Bool) :
    notifiesCurrent ({ s with _first := b }, tr) = notifiesCurrent (s, tr) := rfl

/-- Field-preservation and freshness for the `lower_threshold` trait
assignment. -/
lemma set_lower_fields (s : ThState) (v : ℚ) :
    (set_lower_threshold s v).1.outputs = s.outputs ∧
    (set_lower_threshold s v).1.filter_type = s.filter_type ∧
    (set_lower_threshold s v).1.auto_reset_lower = s.auto_reset_lower ∧
    (set_lower_threshold s v).1.auto_reset_upper = s.auto_reset_upper ∧
    (set_lower_threshold s v).1._first = s._first ∧
    (set_lower_threshold s v).1.inputs = s.inputs ∧
    notifiesCurrent (set_lower_threshold s v) = true := by
  unfold set_lower_threshold
  split
  · exact ⟨rfl, rfl, rfl, rfl, rfl, rfl, rfl⟩
  · unfold lowerThresholdChanged
    refine ⟨setActive_outputs _ _, setActive_filter_type _ _,
      setActive_auto_lower _ _, setActive_auto_upper _ _,
      setActive_first _ _, setActive_inputs _ _, ?_⟩
    simp [notifiesCurrent]

/-- Field-preservation and freshness for the `upper_threshold` trait
assignment. -/
lemma set_upper_fields (s : ThState) (v : ℚ) :
    (set_upper_threshold s v).1.outputs = s.outputs ∧
    (set_upper_threshold s v).1.filter_type = s.filter_type ∧
    (set_upper_threshold s v).1.auto_reset_lower = s.auto_reset_lower ∧
    (set_upper_threshold s v).1.auto_reset_upper = s.auto_reset_upper ∧
    (set_upper_threshold s v).1._first = s._first ∧
    (set_upper_threshold s v).1.inputs = s.inputs ∧
    notifiesCurrent (set_upper_threshold s v) = true := by
  unfold set_upper_threshold
  split
  · exact ⟨rfl, rfl, rfl, rfl, rfl, rfl, rfl⟩
  · unfold upperThresholdChanged
    refine ⟨setActive_outputs _ _, setActive_filter_type _ _,
      setActive_auto_lower _ _, setActive_auto_upper _ _,
      setActive_first _ _, setActive_inputs _ _, ?_⟩
    simp [notifiesCurrent]

lemma notifiesCurrent_append (s : ThState) (a b : List Event) :
    notifiesCurrent (s, a ++ b)
      = (notifiesCurrent (s, a) && notifiesCurrent (s, b)) := by
  simp [notifiesCurrent]

/-- Field-preservation and freshness for the lower-side block of
`_update_ranges`. -/
lemma updateRangesLower_fields (s : ThState) (lo : ℚ) :
    (updateRangesLower s lo).1.outputs = s.outputs ∧
    (updateRangesLower s lo).1.filter_type = s.filter_type ∧
    (updateRangesLower s lo).1.auto_reset_lower = s.auto_reset_lower ∧
    (updateRangesLower s lo).1.auto_reset_upper = s.auto_reset_upper ∧
    (updateRangesLower s lo).1._first = s._first ∧
    (updateRangesLower s lo).1.inputs = s.inputs ∧
    notifiesCurrent (updateRangesLower s lo) = true := by
  unfold updateRangesLower
  split
  · split
    · exact ⟨rfl, rfl, rfl, rfl, rfl, rfl, rfl⟩
    · exact set_lower_fields { s with _data_min := lo } lo
  · exact ⟨rfl, rfl, rfl, rfl, rfl, rfl, rfl⟩

/-- Field-preservation and freshness for the upper-side block of
`_update_ranges`. -/
lemma updateRangesUpper_fields (s : ThState) (hi : ℚ) :
    (updateRangesUpper s hi).1.outputs = s.outputs ∧
    (updateRangesUpper s hi).1.filter_type = s.filter_type ∧
    (updateRangesUpper s hi).1.auto_reset_lower = s.auto_reset_lower ∧
    (updateRangesUpper s hi).1.auto_reset_upper = s.auto_reset_upper ∧
    (updateRangesUpper s hi).1._first = s._first ∧
    (updateRangesUpper s hi).1.inputs = s.inputs ∧
    notifiesCurrent (updateRangesUpper s hi) = true := by
  unfold updateRangesUpper
  split
  · exact set_upper_fields { s with _data_max := hi } hi
  · exact ⟨rfl, rfl, rfl, rfl, rfl, rfl, rfl⟩

/-- When `auto_reset_upper` is on, the lower-side block is silent
(`notify = not self.auto_reset_upper`). -/
lemma updateRangesLower_silent (s : ThState) (lo : ℚ)
    (h : s.auto_reset_upper = true) : (updateRangesLower s lo).2 = [] := by
  unfold updateRangesLower
  split <;> simp_all

/-- `_update_ranges` never touches `outputs` or `filter_type`, and every
`data_changed` it emits carries the final observable outputs. -/
lemma updateRanges_ok (s s' : ThState) (tr : List Event)
    (h : updateRanges s = .ok (s', tr)) :
    s'.outputs = s.outputs ∧ s'.filter_type = s.filter_type ∧
    notifiesCurrent (s', tr) = true := by
  unfold updateRanges at h
  split at h
  · exact Except.noConfusion h
  · split at h
    · injection h with h'
      injection h' with h1 h2
      subst h1; subst h2
      exact ⟨rfl, rfl, notifiesCurrent_nil s⟩
    · exact Except.noConfusion h
    · rename_i lo hi rest heq
      split at h
      · injection h with h'
        injection h' with h1 h2
        subst h1; subst h2
        obtain ⟨o1, o2, _, _, _, _, o7⟩ :=
          set_upper_fields { s with _data_min := lo, _data_max := hi,
                                    lower_threshold := lo } hi
        exact ⟨o1, o2, o7⟩
      · injection h with h'
        injection h' with h1 h2
        subst h1; subst h2
        obtain ⟨l1, l2, _, l4, _, _, l7⟩ := updateRangesLower_fields s lo
        obtain ⟨u1, u2, _, _, _, _, u7⟩ :=
          updateRangesUpper_fields (updateRangesLower s lo).1 hi
        refine ⟨by rw [u1, l1], by rw [u2, l2], ?_⟩
        rw [notifiesCurrent_append]
        by_cases hau : s.auto_reset_upper = true
        · rw [updateRangesLower_silent s lo hau]
          simp [notifiesCurrent_nil, u7]
        · have hUU : updateRangesUpper (updateRangesLower s lo).1 hi
              = ((updateRangesLower s lo).1, []) := by
            unfold updateRangesUpper
            rw [if_neg (by rw [l4]; exact hau)]
          rw [hUU]
          simp [notifiesCurrent_nil, l7]

lemma threshold_filter_first (s : ThState) (b : Bool) :
    ({ s with _first := b } : ThState).threshold_filter
      = s.threshold_filter := rfl

/-- A notifying upper-bound assignment that actually changes the value:
the bound pair is applied to the active instance, the instance is
executed, and one `data_changed` carrying the final observable outputs is
emitted. -/
lemma set_upper_notify (S : ThState) (v : ℚ)
    (hne : S.upper_threshold ≠ v) :
    (set_upper_threshold S v).2
        = [Event.exec S.filter_type,
           Event.data_changed (set_upper_threshold S v).1.observableOutputs] ∧
    (set_upper_threshold S v).1._data_min = S._data_min ∧
    (set_upper_threshold S v).1._data_max = S._data_max ∧
    (set_upper_threshold S v).1.lower_threshold = S.lower_threshold ∧
    (set_upper_threshold S v).1.upper_threshold = v ∧
    (set_upper_threshold S v).1._first = S._first ∧
    (set_upper_threshold S v).1.threshold_filter
        = (S.threshold_filter.threshold_between S.lower_threshold v).update := by
  unfold set_upper_threshold
  rw [if_neg hne]
  unfold upperThresholdChanged
  exact ⟨rfl, setActive_data_min _ _, setActive_data_max _ _,
    setActive_lower _ _, setActive_upper _ _, setActive_first _ _,
    setActive_threshold_filter _ _⟩

/-- Reduction of `_update_ranges` once the data range is known to have at
least two entries. -/
lemma updateRanges_eq (s : ThState) (lo hi : ℚ) (rest : List ℚ)
    (hg : getDataRange s = .ok (lo :: hi :: rest)) :
    updateRanges s =
      if s._first then
        .ok ({ (set_upper_threshold
                  { s with _data_min := lo, _data_max := hi,
                           lower_threshold := lo } hi).1 with _first := false },
             (set_upper_threshold
                  { s with _data_min := lo, _data_max := hi,
                           lower_threshold := lo } hi).2)
      else
        .ok ((updateRangesUpper (updateRangesLower s lo).1 hi).1,
             (updateRangesLower s lo).2 ++
               (updateRangesUpper (updateRangesLower s lo).1 hi).2) := by
  unfold updateRanges
  rw [hg]

/-- Reduction of `update_data` on an attached filter. -/
lemma update_data_eq (s : ThState) (u : Upstream) (us : List Upstream)
    (hin : s.inputs = u :: us) (s1 : ThState) (tr : List Event)
    (hur : updateRanges s = .ok (s1, tr)) :
    update_data s
      = .ok (s1, tr ++ [Event.data_changed s1.observableOutputs]) := by
  unfold update_data
  rw [hin, hur]

/-- Reduction of `update_pipeline` on an attached filter with a nonempty
upstream output list. -/
lemma update_pipeline_eq (s : ThState) (u : Upstream) (us : List Upstream)
    (d : Dataset) (ds : List Dataset)
    (hin : s.inputs = u :: us) (hout : u.outputs = d :: ds)
    (s2 : ThState) (tr : List Event)
    (hur : updateRanges (s.setActive { s.threshold_filter with input := d })
            = .ok (s2, tr)) :
    update_pipeline s
      = .ok ({ s2 with outputs := [s2.filter_type] },
             tr ++ [Event.set_outputs [s2.filter_type]]) := by
  simp only [update_pipeline, hin, hout, hur, setOutputsFn]

/-- The first-update branch of `_update_ranges`, when the new upper
endpoint differs from the current upper threshold: the cached range and
both bounds are set, `_first` clears, and the (single) upper-bound trait
assignment executes the active algorithm exactly once with the new bound
pair. -/
lemma updateRanges_first (s : ThState) (lo hi : ℚ) (rest : List ℚ)
    (hg : getDataRange s = .ok (lo :: hi :: rest))
    (hf : s._first = true)
    (hne : s.upper_threshold ≠ hi) :
    ∃ s', updateRanges s
        = .ok (s', [Event.exec s.filter_type,
                    Event.data_changed s'.observableOutputs])
      ∧ s'._data_min = lo ∧ s'._data_max = hi
      ∧ s'.lower_threshold = lo ∧ s'.upper_threshold = hi
      ∧ s'._first = false
      ∧ s'.threshold_filter.exec_count = s.threshold_filter.exec_count + 1
      ∧ s'.threshold_filter.t_lo = lo
      ∧ s'.threshold_filter.t_hi = hi := by
  have hred := updateRanges_eq s lo hi rest hg
  rw [if_pos (by rw [hf])] at hred
  obtain ⟨e1, e2, e3, e4, e5, e6, e7⟩ :=
    set_upper_notify { s with _data_min := lo, _data_max := hi,
                              lower_threshold := lo } hi hne
  refine ⟨{ (set_upper_threshold
              { s with _data_min := lo, _data_max := hi,
                       lower_threshold := lo } hi).1 with _first := false },
          ?_, ?_, ?_, ?_, ?_, rfl, ?_, ?_, ?_⟩
  · rw [hred, e1]; rfl
  · exact e2
  · exact e3
  · exact e4
  · exact e5
  · rw [threshold_filter_first, e7]; rfl
  · rw [threshold_filter_first, e7]; rfl
  · rw [threshold_filter_first, e7]; rfl

/-- The subsequent-update branch of `_update_ranges` with both auto-reset
flags enabled, when the new upper endpoint differs from the current upper
threshold: the lower bound is set silently, the upper-bound assignment
carries the single notification and executes the active algorithm exactly
once with the new bound pair. -/
lemma updateRanges_both (s : ThState) (lo hi : ℚ) (rest : List ℚ)
    (hg : getDataRange s = .ok (lo :: hi :: rest))
    (hf : s._first = false)
    (hal : s.auto_reset_lower = true)
    (hau : s.auto_reset_upper = true)
    (hne : s.upper_threshold ≠ hi) :
    ∃ s', updateRanges s
        = .ok (s', [Event.exec s.filter_type,
                    Event.data_changed s'.observableOutputs])
      ∧ s'._data_min = lo ∧ s'._data_max = hi
      ∧ s'.lower_threshold = lo ∧ s'.upper_threshold = hi
      ∧ s'._first = false
      ∧ s'.threshold_filter.exec_count = s.threshold_filter.exec_count + 1
      ∧ s'.threshold_filter.t_lo = lo
      ∧ s'.threshold_filter.t_hi = hi := by
  have hred := updateRanges_eq s lo hi rest hg
  rw [if_neg (by rw [hf]; exact Bool.false_ne_true)] at hred
  have hLL : updateRangesLower s lo
      = ({ s with _data_min := lo, lower_threshold := lo }, []) := by
    unfold updateRangesLower
    rw [if_pos (by rw [hal]), if_pos (by rw [hau])]
  rw [hLL] at hred
  have hUU : updateRangesUpper
        ({ s with _data_min := lo, lower_threshold := lo } : ThState) hi
      = set_upper_threshold
          { s with _data_min := lo, lower_threshold := lo,
                   _data_max := hi } hi := by
    unfold updateRangesUpper
    rw [if_pos (by rw [hau])]
  rw [hUU] at hred
  obtain ⟨e1, e2, e3, e4, e5, e6, e7⟩ :=
    set_upper_notify { s with _data_min := lo, lower_threshold := lo,
                              _data_max := hi } hi hne
  refine ⟨(set_upper_threshold
            { s with _data_min := lo, lower_threshold := lo,
                     _data_max := hi } hi).1,
          ?_, ?_, ?_, ?_, ?_, ?_, ?_, ?_, ?_⟩
  · rw [hred, e1]; rfl
  · exact e2
  · exact e3
  · exact e4
  · exact e5
  · rw [e6]; exact hf
  · rw [e7]; rfl
  · rw [e7]; rfl
  · rw [e7]; rfl

/-- A detached filter makes `update_pipeline` a silent no-op. -/
lemma update_pipeline_detached (s : ThState) (h : s.inputs = []) :
    update_pipeline s = .ok (s, []) := by
  unfold update_pipeline; rw [h]

/-- A detached filter makes `update_data` a silent no-op. -/
lemma update_data_detached (s : ThState) (h : s.inputs = []) :
    update_data s = .ok (s, []) := by
  unfold update_data; rw [h]

/-- Toggling `auto_reset_lower` on a detached filter only changes the flag. -/
lemma set_auto_reset_lower_detached (s : ThState) (v : Bool)
    (h : s.inputs = []) :
    set_auto_reset_lower s v = .ok ({ s with auto_reset_lower := v }, []) := by
  unfold set_auto_reset_lower
  split
  · rename_i heq; rw [← heq]
  · unfold autoResetLowerChanged
    rw [show ({ s with auto_reset_lower := v } : ThState).inputs = [] from h]

/-- Toggling `auto_reset_upper` on a detached filter only changes the flag. -/
lemma set_auto_reset_upper_detached (s : ThState) (v : Bool)
    (h : s.inputs = []) :
    set_auto_reset_upper s v = .ok ({ s with auto_reset_upper := v }, []) := by
  unfold set_auto_reset_upper
  split
  · rename_i heq; rw [← heq]
  · unfold autoResetUpperChanged
    rw [show ({ s with auto_reset_upper := v } : ThState).inputs = [] from h]

/-- Switching `filter_type` on a detached filter only changes the mode
field: no rebinding, no execution, no output assignment, no notification. -/
lemma set_filter_type_detached (s : ThState) (m : FilterType)
    (h : s.inputs = []) :
    set_filter_type s m = .ok ({ s with filter_type := m }, []) := by
  unfold set_filter_type
  split
  · rename_i heq; rw [← heq]
  · unfold thresholdFilterChanged
    rw [show ({ s with filter_type := m } : ThState).inputs = [] from h]

/-- Every notification `update_data` emits reflects the final outputs. -/
lemma update_data_fresh (s : ThState) :
    notifiesCurrentE (update_data s) = true := by
  unfold update_data
  split
  · rfl
  · split
    · rfl
    · rename_i s1 tr heq
      obtain ⟨_, _, h3⟩ := updateRanges_ok _ s1 tr heq
      show notifiesCurrent
        (s1, tr ++ [Event.data_changed s1.observableOutputs]) = true
      rw [notifiesCurrent_append, h3]
      simp [notifiesCurrent]

/-- Once `outputs` already references the active instance's output port,
every notification `update_pipeline` emits reflects the final outputs. -/
lemma update_pipeline_fresh (s : ThState)
    (h : s.outputs = [s.filter_type]) :
    notifiesCurrentE (update_pipeline s) = true := by
  unfold update_pipeline
  split
  · rfl
  · split
    · rfl
    · split
      · rfl
      · rename_i s2 tr heq
        obtain ⟨h1, h2, h3⟩ := updateRanges_ok _ s2 tr heq
        rw [setActive_outputs] at h1
        rw [setActive_filter_type] at h2
        have hL : [s2.filter_type] = s2.outputs := by
          rw [h2, h1, h]
        show notifiesCurrent
          ({ s2 with outputs := [s2.filter_type] },
           tr ++ [Event.set_outputs [s2.filter_type]]) = true
        rw [hL]
        show notifiesCurrent (s2, tr ++ [Event.set_outputs s2.outputs]) = true
        rw [notifiesCurrent_append, h3]
        simp [notifiesCurrent]

end Lemmas

/-! Concrete states used by counterexamples and witnesses. -/

/-- Attached filter after initialization on range `[0, 10]`, whose data
then changes to `[5, 10]`: the new upper endpoint coincides with the
current upper threshold. -/
def cx1 : ThState :=
  { attachRaw (some ⟨(5, 10)⟩) none with
    _first := false, lower_threshold := 0, upper_threshold := 10,
    _data_min := 0, _data_max := 10 }

/-- Freshly attached filter whose data range's upper endpoint coincides
with the default upper threshold `1.0e20`. -/
def cx2 : ThState := attachRaw (some ⟨(0, 10^20)⟩) none

/-- Attached filter, no scalar data, `auto_reset_lower` currently off. -/
def cx3l : ThState := { attachRaw none none with auto_reset_lower := false }

/-- Attached filter, no scalar data, `auto_reset_upper` currently off. -/
def cx3u : ThState := { attachRaw none none with auto_reset_upper := false }

/-- Freshly attached filter on point-scalar range `[0, 10]`, outputs not
yet assigned. -/
def cx4 : ThState := attachRaw (some ⟨(0, 10)⟩) none

/-- Attached filter whose `outputs` already references the active
instance's output port. -/
def wit4 : ThState :=
  { attachRaw (some ⟨(0, 10)⟩) none with outputs := [FilterType.cells] }

/-- Attached filter with bounds `(2, 8)`, for the filter-type switch. -/
def wit7 : ThState :=
  { attachRaw (some ⟨(0, 10)⟩) none with
    lower_threshold := 2, upper_threshold := 8 }

/-! The claims. -/

/-- C1 (amended): for a subsequent data-range change processed by
`update_data` or `update_pipeline` with both auto-reset flags enabled and
a non-empty new range `[lo, hi]`, *provided the new upper endpoint differs
from the current upper threshold*, the lower-threshold assignment is made
without notification and the upper-threshold assignment carries the single
notification, so exactly one re-execution of the active algorithm occurs
for the event, and afterwards `lower_threshold = lo`,
`upper_threshold = hi` (when `hi` equals the current upper threshold, the
trait machinery fires no notification and no re-execution occurs, see the
counterexample). -/
theorem claim_C1 (s : ThState) (u : Upstream) (us : List Upstream)
    (d : Dataset) (ds : List Dataset) (lo hi : ℚ)
    (hin : s.inputs = u :: us) (hout : u.outputs = d :: ds)
    (hdr : dataRange d = [lo, hi])
    (hf : s._first = false)
    (hal : s.auto_reset_lower = true) (hau : s.auto_reset_upper = true)
    (hne : s.upper_threshold ≠ hi) :
    ∃ s', update_data s
        = .ok (s', [Event.exec s.filter_type,
                    Event.data_changed s'.observableOutputs,
                    Event.data_changed s'.observableOutputs])
      ∧ s'.lower_threshold = lo ∧ s'.upper_threshold = hi
      ∧ s'._data_min = lo ∧ s'._data_max = hi
      ∧ s'.threshold_filter.exec_count = s.threshold_filter.exec_count + 1
      ∧ ∃ s2 tr2, update_pipeline s = .ok (s2, tr2) ∧ countExec tr2 = 1
          ∧ s2.lower_threshold = lo ∧ s2.upper_threshold = hi
          ∧ s2._data_min = lo ∧ s2._data_max = hi := by
  have hg : getDataRange s = .ok [lo, hi] := by
    simp only [getDataRange, hin, hout, hdr]
  obtain ⟨s', h1, h2, h3, h4, h5, h6, h7, h8, h9⟩ :=
    updateRanges_both s lo hi [] hg hf hal hau hne
  refine ⟨s', ?_, h4, h5, h2, h3, h7, ?_⟩
  · exact update_data_eq s u us hin s' _ h1
  · have hg2 : getDataRange
        (s.setActive { s.threshold_filter with input := d }) = .ok [lo, hi] := by
      simp only [getDataRange, setActive_inputs, hin, hout, hdr]
    obtain ⟨s2, g1, g2, g3, g4, g5, g6, g7, g8, g9⟩ :=
      updateRanges_both _ lo hi [] hg2
        (by rw [setActive_first]; exact hf)
        (by rw [setActive_auto_lower]; exact hal)
        (by rw [setActive_auto_upper]; exact hau)
        (by rw [setActive_upper]; exact hne)
    refine ⟨_, _, update_pipeline_eq s u us d ds hin hout s2 _ g1,
            ?_, g4, g5, g2, g3⟩
    rfl

/-- C1 counterexample: `cx1` is a subsequent data-range change (`_first`
cleared, both auto-reset flags on, new non-empty range `[5, 10]`) on which
`update_data` triggers zero re-executions of the active algorithm, not
exactly one, because the new upper endpoint `10` equals the current upper
threshold. -/
theorem claim_C1_counterexample :
    cx1._first = false ∧ cx1.auto_reset_lower = true
    ∧ cx1.auto_reset_upper = true
    ∧ getDataRange cx1 = .ok [5, 10]
    ∧ (update_data cx1).map
        (fun p => (countExec p.2, p.1.lower_threshold, p.1.upper_threshold))
        = .ok (0, 5, 10)
    ∧ ¬ ∃ s' tr, update_data cx1 = .ok (s', tr) ∧ countExec tr = 1 := by
  refine ⟨rfl, rfl, rfl, rfl, by decide, ?_⟩
  rintro ⟨s', tr, h1, h2⟩
  have hm : (update_data cx1).map (fun p => countExec p.2) = .ok 0 := by
    decide
  rw [h1] at hm
  simp only [Except.map] at hm
  injection hm with hm'
  rw [h2] at hm'
  exact absurd hm' one_ne_zero

/-- C2 (amended): on the first successful range computation (`_first`
still set) with non-empty range `[lo, hi]`, *provided `hi` differs from
the current upper threshold*: `_data_min`, `_data_max`, both bounds are
set to the range endpoints, the lower-bound assignment is silent, the
upper-bound assignment executes the active algorithm exactly once with
the new bound pair and carries the single notification, and `_first`
clears so the branch runs once per attachment (when `hi` equals the
current upper threshold no re-execution occurs, see the
counterexample). -/
theorem claim_C2 (s : ThState) (u : Upstream) (us : List Upstream)
    (d : Dataset) (ds : List Dataset) (lo hi : ℚ)
    (hin : s.inputs = u :: us) (hout : u.outputs = d :: ds)
    (hdr : dataRange d = [lo, hi])
    (hf : s._first = true)
    (hne : s.upper_threshold ≠ hi) :
    ∃ s', updateRanges s
        = .ok (s', [Event.exec s.filter_type,
                    Event.data_changed s'.observableOutputs])
      ∧ s'._data_min = lo ∧ s'._data_max = hi
      ∧ s'.lower_threshold = lo ∧ s'.upper_threshold = hi
      ∧ s'._first = false
      ∧ s'.threshold_filter.exec_count = s.threshold_filter.exec_count + 1
      ∧ s'.threshold_filter.t_lo = lo
      ∧ s'.threshold_filter.t_hi = hi := by
  have hg : getDataRange s = .ok [lo, hi] := by
    simp only [getDataRange, hin, hout, hdr]
  exact updateRanges_first s lo hi [] hg hf hne

/-- C2 counterexample: on `cx2` (fresh attachment, non-empty range
`[0, 10^20]` whose upper endpoint equals the default upper threshold) the
first range computation sets the bounds and clears `_first` but triggers
zero re-executions, not exactly one. -/
theorem claim_C2_counterexample :
    cx2._first = true
    ∧ getDataRange cx2 = .ok [0, 10^20]
    ∧ (updateRanges cx2).map
        (fun p => (countExec p.2, p.1.lower_threshold, p.1.upper_threshold,
                   p.1._first))
        = .ok (0, 0, 10^20, false)
    ∧ ¬ ∃ s' tr, updateRanges cx2 = .ok (s', tr) ∧ countExec tr = 1 := by
  refine ⟨rfl, rfl, by decide, ?_⟩
  rintro ⟨s', tr, h1, h2⟩
  have hm : (updateRanges cx2).map (fun p => countExec p.2) = .ok 0 := by
    decide
  rw [h1] at hm
  simp only [Except.map] at hm
  injection hm with hm'
  rw [h2] at hm'
  exact absurd hm' one_ne_zero

/-- C3: a dataset with neither point nor cell scalars yields the empty
range, and `_update_ranges` / `update_data` treat it as a benign no-op —
but enabling `auto_reset_lower` or `auto_reset_upper` while attached to
such a dataset raises an IndexError (`dr[0]` / `dr[1]` on an empty list)
instead of the no-op required by the documented policy. -/
theorem claim_C3 :
    dataRange (Dataset.raw none none) = []
    ∧ updateRanges (attachRaw none none) = .ok (attachRaw none none, [])
    ∧ update_data (attachRaw none none)
        = .ok (attachRaw none none, [Event.data_changed []])
    ∧ set_auto_reset_lower cx3l true = .error Err.indexError
    ∧ set_auto_reset_upper cx3u true = .error Err.indexError := by
  refine ⟨rfl, rfl, rfl, by decide, by decide⟩

/-- Attached, initialized state whose data range changes to `[5, 9]` with
upper threshold still `10`. -/
def wit1 : ThState :=
  { attachRaw (some ⟨(5, 9)⟩) none with
    _first := false, lower_threshold := 0, upper_threshold := 10,
    _data_min := 0, _data_max := 10 }

/-- C1 witness: the amended claim at the concrete state `wit1`. -/
theorem claim_C1_witness :
    ∃ s', update_data wit1
        = .ok (s', [Event.exec wit1.filter_type,
                    Event.data_changed s'.observableOutputs,
                    Event.data_changed s'.observableOutputs])
      ∧ s'.lower_threshold = 5 ∧ s'.upper_threshold = 9
      ∧ s'._data_min = 5 ∧ s'._data_max = 9
      ∧ s'.threshold_filter.exec_count = wit1.threshold_filter.exec_count + 1
      ∧ ∃ s2 tr2, update_pipeline wit1 = .ok (s2, tr2) ∧ countExec tr2 = 1
          ∧ s2.lower_threshold = 5 ∧ s2.upper_threshold = 9
          ∧ s2._data_min = 5 ∧ s2._data_max = 9 :=
  claim_C1 wit1 ⟨[Dataset.raw (some ⟨(5, 9)⟩) none]⟩ []
    (Dataset.raw (some ⟨(5, 9)⟩) none) [] 5 9 rfl rfl rfl rfl rfl rfl
    (by decide)

/-- Freshly attached filter on point-scalar range `[3, 42]`. -/
def wit2 : ThState := attachRaw (some ⟨(3, 42)⟩) none

/-- C2 witness: the amended claim at the concrete state `wit2`. -/
theorem claim_C2_witness :
    ∃ s', updateRanges wit2
        = .ok (s', [Event.exec wit2.filter_type,
                    Event.data_changed s'.observableOutputs])
      ∧ s'._data_min = 3 ∧ s'._data_max = 42
      ∧ s'.lower_threshold = 3 ∧ s'.upper_threshold = 42
      ∧ s'._first = false
      ∧ s'.threshold_filter.exec_count = wit2.threshold_filter.exec_count + 1
      ∧ s'.threshold_filter.t_lo = 3
      ∧ s'.threshold_filter.t_hi = 42 :=
  claim_C2 wit2 ⟨[Dataset.raw (some ⟨(3, 42)⟩) none]⟩ []
    (Dataset.raw (some ⟨(3, 42)⟩) none) [] 3 42 rfl rfl rfl rfl (by decide)

/-- C4 (amended): for the bound setters and `update_data`, every
`data_changed` notification is emitted only after the active algorithm's
output has been brought up to date, so re-pulling the outputs at the
notification observes no stale data; the same holds for `update_pipeline`
once `outputs` already references the active instance's output port (on
the very first `update_pipeline` the internal upper-threshold
initialization notifies before `outputs` is first assigned, see the
counterexample). -/
theorem claim_C4 (s : ThState) (v : ℚ) :
    notifiesCurrent (set_lower_threshold s v) = true ∧
    notifiesCurrent (set_upper_threshold s v) = true ∧
    notifiesCurrentE (update_data s) = true ∧
    (s.outputs = [s.filter_type] → notifiesCurrentE (update_pipeline s) = true) :=
  ⟨(set_lower_fields s v).2.2.2.2.2.2, (set_upper_fields s v).2.2.2.2.2.2,
   update_data_fresh s, fun h => update_pipeline_fresh s h⟩

/-- C4 counterexample: on the very first `update_pipeline` after
attachment (`cx4`), the `data_changed` raised by the internal
upper-threshold initialization is emitted while `outputs` is still empty,
before `_set_outputs` runs, so a downstream observer re-pulling outputs at
that notification sees stale (empty) outputs. -/
theorem claim_C4_counterexample :
    notifiesCurrentE (update_pipeline cx4) = false
    ∧ (update_pipeline cx4).map (fun p => p.2)
        = .ok [Event.exec FilterType.cells, Event.data_changed [],
               Event.set_outputs [FilterType.cells]]
    ∧ (update_pipeline cx4).map (fun p => p.1.observableOutputs)
        = .ok [Dataset.thresholded FilterType.cells 0 10
                 (Dataset.raw (some ⟨(0, 10)⟩) none)] := by
  refine ⟨by decide, by decide, by decide⟩

/-- C4 witness: the amended claim at the concrete state `wit4`. -/
theorem claim_C4_witness :
    notifiesCurrentE (update_pipeline wit4) = true :=
  (claim_C4 wit4 0).2.2.2 (by decide)

/-- C5 (amended): with no input attached, `update_pipeline`,
`update_data` and the auto-reset toggles are silent no-ops, and a
filter-type switch changes only the mode field (no rebinding, execution,
output assignment or notification).  The bound setters, however, are not
guarded by the no-input check: they mutate state, execute the active
algorithm and notify even when detached (see the counterexample). -/
theorem claim_C5 (s : ThState) (h : s.inputs = []) :
    update_pipeline s = .ok (s, [])
    ∧ update_data s = .ok (s, [])
    ∧ (∀ v, set_auto_reset_lower s v
        = .ok ({ s with auto_reset_lower := v }, []))
    ∧ (∀ v, set_auto_reset_upper s v
        = .ok ({ s with auto_reset_upper := v }, []))
    ∧ (∀ m, set_filter_type s m = .ok ({ s with filter_type := m }, [])) :=
  ⟨update_pipeline_detached s h, update_data_detached s h,
   fun v => set_auto_reset_lower_detached s v h,
   fun v => set_auto_reset_upper_detached s v h,
   fun m => set_filter_type_detached s m h⟩

/-- C5 counterexample: assigning `lower_threshold = 5` on the detached
fresh filter is not a no-op: the bound changes, the active algorithm's
bound pair is applied and it is executed once, and a `data_changed`
notification is emitted. -/
theorem claim_C5_counterexample :
    initial.inputs = []
    ∧ set_lower_threshold initial 5 ≠ (initial, [])
    ∧ (set_lower_threshold initial 5).1.lower_threshold = 5
    ∧ (set_lower_threshold initial 5).1._threshold.exec_count = 1
    ∧ countExec (set_lower_threshold initial 5).2 = 1
    ∧ countDC (set_lower_threshold initial 5).2 = 1 := by
  refine ⟨rfl, by decide, by decide, by decide, by decide, by decide⟩

/-- C5 witness: the amended claim at the detached fresh filter. -/
theorem claim_C5_witness :
    update_pipeline initial = .ok (initial, [])
    ∧ update_data initial = .ok (initial, [])
    ∧ (∀ v, set_auto_reset_lower initial v
        = .ok ({ initial with auto_reset_lower := v }, []))
    ∧ (∀ v, set_auto_reset_upper initial v
        = .ok ({ initial with auto_reset_upper := v }, []))
    ∧ (∀ m, set_filter_type initial m
        = .ok ({ initial with filter_type := m }, [])) :=
  claim_C5 initial rfl

/-- C6: the range used by the recompute logic is the point-attached scalar
array's range when it exists, else the cell-attached scalar array's range
when that exists, else the empty range, in which case `_update_ranges` is
a no-op. -/
theorem claim_C6 (s : ThState) (u : Upstream) (us : List Upstream)
    (ds : List Dataset) (ps cs : Option ScalarArray)
    (hin : s.inputs = u :: us)
    (hout : u.outputs = Dataset.raw ps cs :: ds) :
    getDataRange s = .ok (dataRange (Dataset.raw ps cs))
    ∧ (∀ a, ps = some a →
        dataRange (Dataset.raw ps cs) = [a.range.1, a.range.2])
    ∧ (ps = none → ∀ a, cs = some a →
        dataRange (Dataset.raw ps cs) = [a.range.1, a.range.2])
    ∧ (ps = none → cs = none →
        dataRange (Dataset.raw ps cs) = []
        ∧ updateRanges s = .ok (s, [])) := by
  have hg : getDataRange s = .ok (dataRange (Dataset.raw ps cs)) := by
    simp only [getDataRange, hin, hout]
  refine ⟨hg, ?_, ?_, ?_⟩
  · rintro a rfl; rfl
  · rintro rfl a rfl; rfl
  · rintro rfl rfl
    have hg2 : getDataRange s = .ok ([] : List ℚ) := hg
    refine ⟨rfl, ?_⟩
    unfold updateRanges
    rw [hg2]

/-- C6 witness: the claim at a concrete attached filter whose dataset has
a point scalar array of range `[1, 2]`. -/
theorem claim_C6_witness :
    getDataRange (attachRaw (some ⟨(1, 2)⟩) none)
      = .ok (dataRange (Dataset.raw (some ⟨(1, 2)⟩) none))
    ∧ (∀ a, (some (⟨(1, 2)⟩ : ScalarArray)) = some a →
        dataRange (Dataset.raw (some ⟨(1, 2)⟩) none)
          = [a.range.1, a.range.2])
    ∧ ((some (⟨(1, 2)⟩ : ScalarArray)) = none →
        ∀ a, (none : Option ScalarArray) = some a →
        dataRange (Dataset.raw (some ⟨(1, 2)⟩) none)
          = [a.range.1, a.range.2])
    ∧ ((some (⟨(1, 2)⟩ : ScalarArray)) = none →
        (none : Option ScalarArray) = none →
        dataRange (Dataset.raw (some ⟨(1, 2)⟩) none) = []
        ∧ updateRanges (attachRaw (some ⟨(1, 2)⟩) none)
            = .ok (attachRaw (some ⟨(1, 2)⟩) none, [])) :=
  claim_C6 (attachRaw (some ⟨(1, 2)⟩) none)
    ⟨[Dataset.raw (some ⟨(1, 2)⟩) none]⟩ [] [] (some ⟨(1, 2)⟩) none rfl rfl

/-- C7: switching `filter_type` while attached (to a mode other than the
current one) rebinds the newly active instance's input to the current
upstream dataset, applies the current bound pair, executes it once, and
sets `outputs` to its single result — equal to running that algorithm
fresh with the current bounds.  `hm` is the construction invariant that
the owned instance for mode `v` is of that mode. -/
theorem claim_C7 (s : ThState) (u : Upstream) (us : List Upstream)
    (d : Dataset) (ds : List Dataset) (v : FilterType)
    (hin : s.inputs = u :: us) (hout : u.outputs = d :: ds)
    (hv : s.filter_type ≠ v)
    (hm : (s.instAt v).mode = v) :
    ∃ s', set_filter_type s v
        = .ok (s', [Event.exec v, Event.set_outputs [v]])
      ∧ s'.filter_type = v
      ∧ s'.outputs = [v]
      ∧ (s'.instAt v).input = d
      ∧ (s'.instAt v).t_lo = s.lower_threshold
      ∧ (s'.instAt v).t_hi = s.upper_threshold
      ∧ (s'.instAt v).exec_count = (s.instAt v).exec_count + 1
      ∧ s'.observableOutputs
          = [Dataset.thresholded v s.lower_threshold s.upper_threshold d] := by
  have h1 : set_filter_type s v
      = thresholdFilterChanged { s with filter_type := v } := by
    unfold set_filter_type; rw [if_neg hv]
  rw [h1]
  cases v with
  | cells =>
    have hm' : s._threshold.mode = FilterType.cells := hm
    refine ⟨{ s with
              filter_type := FilterType.cells,
              _threshold :=
                { mode := s._threshold.mode, input := d,
                  t_lo := s.lower_threshold, t_hi := s.upper_threshold,
                  output := Dataset.thresholded s._threshold.mode
                    s.lower_threshold s.upper_threshold d,
                  exec_count := s._threshold.exec_count + 1 },
              outputs := [FilterType.cells] },
            ?_, rfl, rfl, rfl, rfl, rfl, rfl, ?_⟩
    · simp only [thresholdFilterChanged, hin, hout]
      rfl
    · conv_rhs => rw [← hm']
      rfl
  | points =>
    have hm' : s._threshold_points.mode = FilterType.points := hm
    refine ⟨{ s with
              filter_type := FilterType.points,
              _threshold_points :=
                { mode := s._threshold_points.mode, input := d,
                  t_lo := s.lower_threshold, t_hi := s.upper_threshold,
                  output := Dataset.thresholded s._threshold_points.mode
                    s.lower_threshold s.upper_threshold d,
                  exec_count := s._threshold_points.exec_count + 1 },
              outputs := [FilterType.points] },
            ?_, rfl, rfl, rfl, rfl, rfl, rfl, ?_⟩
    · simp only [thresholdFilterChanged, hin, hout]
      rfl
    · conv_rhs => rw [← hm']
      rfl

/-- C7 witness: switching `wit7` (bounds `(2, 8)`, mode `cells`) to
`points`. -/
theorem claim_C7_witness :
    ∃ s', set_filter_type wit7 FilterType.points
        = .ok (s', [Event.exec FilterType.points,
                    Event.set_outputs [FilterType.points]])
      ∧ s'.filter_type = FilterType.points
      ∧ s'.outputs = [FilterType.points]
      ∧ (s'.instAt FilterType.points).input
          = Dataset.raw (some ⟨(0, 10)⟩) none
      ∧ (s'.instAt FilterType.points).t_lo = wit7.lower_threshold
      ∧ (s'.instAt FilterType.points).t_hi = wit7.upper_threshold
      ∧ (s'.instAt FilterType.points).exec_count
          = (wit7.instAt FilterType.points).exec_count + 1
      ∧ s'.observableOutputs
          = [Dataset.thresholded FilterType.points wit7.lower_threshold
               wit7.upper_threshold (Dataset.raw (some ⟨(0, 10)⟩) none)] :=
  claim_C7 wit7 ⟨[Dataset.raw (some ⟨(0, 10)⟩) none]⟩ []
    (Dataset.raw (some ⟨(0, 10)⟩) none) [] FilterType.points rfl rfl
    (by decide) rfl

/-- C8: with zero inputs, `update_pipeline` and `update_data` return
immediately: the state — `outputs` included — is exactly what it was, and
no event is emitted. -/
theorem claim_C8 (s : ThState) (h : s.inputs = []) :
    update_pipeline s = .ok (s, []) ∧ update_data s = .ok (s, []) :=
  ⟨update_pipeline_detached s h, update_data_detached s h⟩

/-- C8 witness: the claim at a detached filter that still carries an old
output port reference. -/
theorem claim_C8_witness :
    update_pipeline { initial with outputs := [FilterType.cells] }
      = .ok ({ initial with outputs := [FilterType.cells] }, [])
    ∧ update_data { initial with outputs := [FilterType.cells] }
      = .ok ({ initial with outputs := [FilterType.cells] }, []) :=
  claim_C8 { initial with outputs := [FilterType.cells] } rfl

/-- C9: the persisted pure state contains `filter_type`,
`lower_threshold`, `upper_threshold`, `auto_reset_lower`,
`auto_reset_upper`, and never the popped derived entries `_first`,
`_data_min`, `_data_max`. -/
theorem claim_C9 (s : ThState) :
    List.lookup "filter_type" (getPureState s) = some (SVal.ft s.filter_type)
    ∧ List.lookup "lower_threshold" (getPureState s)
        = some (SVal.q s.lower_threshold)
    ∧ List.lookup "upper_threshold" (getPureState s)
        = some (SVal.q s.upper_threshold)
    ∧ List.lookup "auto_reset_lower" (getPureState s)
        = some (SVal.b s.auto_reset_lower)
    ∧ List.lookup "auto_reset_upper" (getPureState s)
        = some (SVal.b s.auto_reset_upper)
    ∧ List.lookup "_first" (getPureState s) = none
    ∧ List.lookup "_data_min" (getPureState s) = none
    ∧ List.lookup "_data_max" (getPureState s) = none := by
  exact ⟨rfl, rfl, rfl, rfl, rfl, rfl, rfl, rfl⟩

lemma autoResetLowerChanged_false (S : ThState) :
    autoResetLowerChanged S false = .ok (S, []) := by
  unfold autoResetLowerChanged
  cases S.inputs <;> rfl

lemma autoResetUpperChanged_false (S : ThState) :
    autoResetUpperChanged S false = .ok (S, []) := by
  unfold autoResetUpperChanged
  cases S.inputs <;> rfl

/-- C10: toggling either auto-reset flag to `False` only changes the flag
itself: thresholds, cached range, instances and outputs are untouched and
no event — execution or notification — is emitted. -/
theorem claim_C10 (s : ThState) :
    set_auto_reset_lower s false
      = .ok ({ s with auto_reset_lower := false }, [])
    ∧ set_auto_reset_upper s false
      = .ok ({ s with auto_reset_upper := false }, []) := by
  constructor
  · unfold set_auto_reset_lower
    split
    · rename_i heq; rw [← heq]
    · exact autoResetLowerChanged_false _
  · unfold set_auto_reset_upper
    split
    · rename_i heq; rw [← heq]
    · exact autoResetUpperChanged_false _

end MayaviThreshold
